import Mathlib

/-
Verification development for the Prisme staged ETL pipeline
(src/scripts/pipeline_etl_finance.py, the three-tier variant; the spec
treats the two-tier drafts as superseded).

The embedding models pandas DataFrames shallowly: a frame is a list of
column labels, an optional timezone attached to the timestamp index, and
rows of (naive timestamp, cell values).  `tz_localize(None)` keeps the
wall-clock component of each timestamp and drops only the timezone
attribute, so stripping the timezone leaves `rows` untouched.  Column
lookup uses first-match semantics (provider frames have unique labels).
Fallible pandas operations (`df[[...]]` on a missing label, assigning a
column list of the wrong length) are modelled with `Except`, as is the
`ValueError` raised by `transform_history_and_info` on an empty frame.
-/

namespace ETL

/-- A scalar cell value: numeric, string, or null/NaN. -/
inductive Value where
  | vNum : Int → Value
  | vStr : String → Value
  | vNull : Value
deriving DecidableEq, Repr

/-- A pandas DataFrame with a timestamp index: column labels, the timezone
attached to the index (if any), and rows of (naive timestamp, cells). -/
structure DataFrame where
  columns : List String
  indexTz : Option Int
  rows : List (Int × List Value)
deriving DecidableEq, Repr

instance : Inhabited DataFrame := ⟨⟨[], none, []⟩⟩

/-- The raw descriptive document: a Python dict from attribute name to value. -/
abbrev AssetInfo := List (String × Value)

/-- pandas `df.empty`: true when either axis has length zero. -/
def DataFrame.isEmpty (df : DataFrame) : Bool :=
  df.rows.isEmpty || df.columns.isEmpty

/-- pandas `df.index = df.index.tz_localize(None)`: drop the timezone,
keep the naive wall-clock timestamps. -/
def DataFrame.stripIndexTz (df : DataFrame) : DataFrame :=
  { df with indexTz := none }

/-- Value of column `c` in one row (first matching label; null if absent). -/
def cellAt (cols : List String) (cells : List Value) (c : String) : Value :=
  match cols, cells with
  | [], _ => Value.vNull
  | _ :: _, [] => Value.vNull
  | c0 :: cs, v :: vs => if c0 = c then v else cellAt cs vs c

/-- All values of column `c`, row by row. -/
def DataFrame.colVals (df : DataFrame) (c : String) : List Value :=
  df.rows.map (fun r => cellAt df.columns r.2 c)

/-- pandas `df[[c1, ..., cn]]`: project to the requested labels in the
requested order; raises `KeyError` when a label is missing. -/
def DataFrame.selectColumns (df : DataFrame) (cs : List String) : Except String DataFrame :=
  if cs.all (fun c => df.columns.contains c) then
    .ok { columns := cs, indexTz := df.indexTz,
          rows := df.rows.map (fun r => (r.1, cs.map (fun c => cellAt df.columns r.2 c))) }
  else .error "KeyError"

/-- pandas `df.columns = cs`: raises a length-mismatch `ValueError` when the
new label list does not match the number of columns. -/
def DataFrame.setColumns (df : DataFrame) (cs : List String) : Except String DataFrame :=
  if df.columns.length = cs.length then .ok { df with columns := cs }
  else .error "Length mismatch"

/-- pandas `pd.DataFrame()`: the empty frame passed when no interim
distribution frame exists. -/
def emptyFrame : DataFrame := { columns := [], indexTz := none, rows := [] }

/-- A one-row tabular frame without a timestamp index, as produced by
`pd.DataFrame([some_dict])`. -/
structure InfoFrame where
  columns : List String
  row : List Value
deriving DecidableEq, Repr

/-- pandas `pd.DataFrame([d])`: columns are the dict keys in insertion
order, the single row holds the values. -/
def InfoFrame.fromRecord (r : AssetInfo) : InfoFrame :=
  { columns := r.map Prod.fst, row := r.map Prod.snd }

/-- pandas `df.empty` for the one-row frame: true iff there are no columns. -/
def InfoFrame.isEmpty (f : InfoFrame) : Bool := f.columns.isEmpty

/-- Value of column `c` in the one-row frame, `none` when the column is absent. -/
def InfoFrame.get (f : InfoFrame) (c : String) : Option Value :=
  if f.columns.contains c then some (cellAt f.columns f.row c) else none

/-- Python `asset_info.get(k, None)` on the descriptive dict. -/
def dictGet (info : AssetInfo) (k : String) : Value :=
  match List.lookup k info with
  | some v => v
  | none => Value.vNull

/-- The fixed 17-key descriptive allow-list (`KEYS_TO_KEEP` in the source). -/
def KEYS_TO_KEEP : List String :=
  ["symbol", "shortName", "longName", "fundFamily", "legalType",
   "currency", "netAssets", "navPrice", "regularMarketPrice",
   "ytdReturn", "threeYearAverageReturn", "fiveYearAverageReturn",
   "beta3Year", "yield", "dividendYield",
   "fiftyTwoWeekLow", "fiftyTwoWeekHigh"]

/-- The five processed-tier price columns, in their fixed order. -/
def OHLCV : List String := ["Open", "High", "Low", "Close", "Volume"]

/-- Error message raised by the processed-tier price transform on an empty
history frame (French message from the source). -/
def emptyHistoryMsg : String := "DataFrame d\x27historique vide, impossible de transformer."

/-- `build_interim_from_raw`: interim price frame is the raw frame with the
timezone stripped (only when non-empty and tz-aware); interim descriptive
frame wraps the raw dict into one row; interim distribution frame is absent
when the raw one is `None` or empty, otherwise timezone-stripped. -/
def build_interim_from_raw (df_history : DataFrame) (asset_info : AssetInfo)
    (df_div : Option DataFrame) : DataFrame × InfoFrame × Option DataFrame :=
  let df_hist_interim :=
    if !df_history.isEmpty && df_history.indexTz.isSome
    then df_history.stripIndexTz else df_history
  let df_info_interim := InfoFrame.fromRecord asset_info
  let df_div_interim :=
    match df_div with
    | none => none
    | some d =>
      if d.isEmpty then none
      else some (if d.indexTz.isSome then d.stripIndexTz else d)
  (df_hist_interim, df_info_interim, df_div_interim)

/-- `transform_history_and_info`: raise on an empty history frame; strip the
timezone; project to the five OHLCV columns; project the descriptive dict to
the 17-key allow-list with null for absent keys. -/
def transform_history_and_info (df_history : DataFrame) (asset_info : AssetInfo) :
    Except String (DataFrame × InfoFrame) :=
  if df_history.isEmpty then .error emptyHistoryMsg
  else
    let df2 := if df_history.indexTz.isSome then df_history.stripIndexTz else df_history
    match df2.selectColumns OHLCV with
    | .error e => .error e
    | .ok df_clean =>
      let clean_info_data := KEYS_TO_KEEP.map (fun k => (k, dictGet asset_info k))
      .ok (df_clean, InfoFrame.fromRecord clean_info_data)

/-- `transform_dividends`: `None` or an empty frame yields `None`; otherwise
strip the timezone and rename the sole column to "Dividends". -/
def transform_dividends (df_div : Option DataFrame) : Except String (Option DataFrame) :=
  match df_div with
  | none => .ok none
  | some df =>
    if df.isEmpty then .ok none
    else
      let d := if df.indexTz.isSome then df.stripIndexTz else df
      match d.setColumns ["Dividends"] with
      | .error e => .error e
      | .ok d2 => .ok (some d2)

/-- The three facets returned by `extract_asset` for one ticker. -/
structure Extracted where
  history : DataFrame
  info : AssetInfo
  dividends : DataFrame
deriving DecidableEq, Repr

/-- One observable effect of a run: an artifact written to a tier, a
warning, or a logged per-instrument failure. -/
inductive Event where
  | rawPrices (name : String) (df : DataFrame)
  | warnNoHistory (name : String)
  | rawInfos (name : String) (info : AssetInfo)
  | interimPrices (name : String) (df : DataFrame)
  | interimInfos (name : String) (rec : AssetInfo)
  | interimDividends (name : String) (df : DataFrame)
  | processedPrices (name : String) (df : DataFrame)
  | processedInfos (name : String) (f : InfoFrame)
  | processedDividends (name : String) (df : DataFrame)
  | errorLog (name : String) (ticker : String) (msg : String)
deriving DecidableEq, Repr

/-- `save_raw`: write the raw price artifact unless the history is empty
(then warn instead); always write the raw descriptive document. -/
def save_raw (name : String) (df_history : DataFrame) (asset_info : AssetInfo) : List Event :=
  (if !df_history.isEmpty then [Event.rawPrices name df_history]
   else [Event.warnNoHistory name])
  ++ [Event.rawInfos name asset_info]

/-- `save_interim`: write the interim price artifact when non-empty, the
descriptive record (empty dict when the one-row frame has no columns), and
the distribution artifact only when present and non-empty. -/
def save_interim (name : String) (df_hist_interim : DataFrame)
    (df_info_interim : InfoFrame) (df_div_interim : Option DataFrame) : List Event :=
  (if !df_hist_interim.isEmpty then [Event.interimPrices name df_hist_interim] else [])
  ++ [Event.interimInfos name
        (if !df_info_interim.isEmpty
         then df_info_interim.columns.zip df_info_interim.row else [])]
  ++ (match df_div_interim with
      | some d => if !d.isEmpty then [Event.interimDividends name d] else []
      | none => [])

/-- `load_processed`: write the processed price and descriptive artifacts;
write the distribution artifact only when present and non-empty. -/
def load_processed (name : String) (df_clean : DataFrame) (df_info_clean : InfoFrame)
    (df_div : Option DataFrame) : List Event :=
  [Event.processedPrices name df_clean, Event.processedInfos name df_info_clean]
  ++ (match df_div with
      | some d => if !d.isEmpty then [Event.processedDividends name d] else []
      | none => [])

/-- The external provider boundary: extraction either raises or yields the
three facets.  `run_etl_for_universe` is parametric in it. -/
abbrev Provider := String → Except String Extracted

/-- The body of the per-instrument `try` block of `run_etl_for_universe`:
extract, save raw, skip the remaining tiers when the history is empty,
otherwise build and save interim, transform, and save processed.  Any
error raised by extraction or a transform is caught here and becomes a
logged failure entry (the events already emitted remain). -/
def process_instrument (provider : Provider) (name ticker : String) : List Event :=
  match provider ticker with
  | .error e => [Event.errorLog name ticker e]
  | .ok ex =>
    let raws := save_raw name ex.history ex.info
    if ex.history.isEmpty then raws
    else
      let t := build_interim_from_raw ex.history ex.info (some ex.dividends)
      let interims := save_interim name t.1 t.2.1 t.2.2
      match transform_history_and_info t.1 ex.info with
      | .error e => raws ++ interims ++ [Event.errorLog name ticker e]
      | .ok p =>
        match transform_dividends (some (t.2.2.getD emptyFrame)) with
        | .error e => raws ++ interims ++ [Event.errorLog name ticker e]
        | .ok dp => raws ++ interims ++ load_processed name p.1 p.2 dp

/-- `run_etl_for_universe`: process every (name, ticker) pair of the
universe in order; the event stream is the concatenation of the
per-instrument streams (the start/end banners are not modelled). -/
def run_etl_for_universe (provider : Provider) (tickers_map : List (String × String)) : List Event :=
  tickers_map.flatMap (fun nt => process_instrument provider nt.1 nt.2)

/-- True exactly on interim- or processed-tier distribution artifacts. -/
def Event.isDistributionArtifact : Event → Bool
  | Event.interimDividends _ _ => true
  | Event.processedDividends _ _ => true
  | _ => false

/-
Heap model for the mutation claims.  Python DataFrames are heap objects:
`df.index = ...` and `df.columns = ...` mutate in place, while `.copy()`
allocates a detached object.  A heap is a list of frames addressed by
position; `alloc` appends and returns the fresh reference.  The heap
variants below mirror the source statement by statement.  The descriptive
dict is passed by value: the source only ever reads it (`asset_info.get`),
so no dict heap is needed to observe that it is never written.
-/

/-- The object heap: DataFrames addressed by allocation order. -/
abbrev Heap := List DataFrame

/-- Read the frame a reference points to. -/
def Heap.readRef (h : Heap) (r : Nat) : DataFrame := h.getD r default

/-- In-place mutation of the frame a reference points to. -/
def Heap.writeRef (h : Heap) (r : Nat) (df : DataFrame) : Heap := h.set r df

/-- `.copy()`: allocate a detached frame, returning the new heap and
the fresh reference. -/
def Heap.alloc (h : Heap) (df : DataFrame) : Heap × Nat := (h ++ [df], h.length)

/-- In-place `if df.index.tz is not None: df.index = df.index.tz_localize(None)`
on the object `r` points to. -/
def stripTzInPlace (h : Heap) (r : Nat) : Heap :=
  if (Heap.readRef h r).indexTz.isSome
  then Heap.writeRef h r (Heap.readRef h r).stripIndexTz else h

/-- Heap version of `build_interim_from_raw`: `df_history.copy()` and
`df_div.copy()` allocate; the timezone strips mutate only the copies. -/
def build_interim_from_raw_heap (h : Heap) (rHist : Nat) (asset_info : AssetInfo)
    (rDiv : Option Nat) : Heap × (Nat × InfoFrame × Option Nat) :=
  let p := Heap.alloc h (Heap.readRef h rHist)
  let h2 := if !(Heap.readRef p.1 p.2).isEmpty && (Heap.readRef p.1 p.2).indexTz.isSome
            then Heap.writeRef p.1 p.2 (Heap.readRef p.1 p.2).stripIndexTz else p.1
  let df_info_interim := InfoFrame.fromRecord asset_info
  match rDiv with
  | none => (h2, (p.2, df_info_interim, none))
  | some rd =>
    if (Heap.readRef h2 rd).isEmpty then (h2, (p.2, df_info_interim, none))
    else
      let q := Heap.alloc h2 (Heap.readRef h2 rd)
      (stripTzInPlace q.1 q.2, (p.2, df_info_interim, some q.2))

/-- Heap version of `transform_history_and_info`: the local name is rebound
to a copy before the timezone strip, and the OHLCV projection is copied
into a fresh object.  The descriptive dict is passed by value: the source
only reads it (`asset_info.get`), it has no write on the dict. -/
def transform_history_and_info_heap (h : Heap) (rHist : Nat) (asset_info : AssetInfo) :
    Heap × Except String (Nat × InfoFrame) :=
  if (Heap.readRef h rHist).isEmpty then (h, .error emptyHistoryMsg)
  else
    let p := Heap.alloc h (Heap.readRef h rHist)
    let h2 := stripTzInPlace p.1 p.2
    match (Heap.readRef h2 p.2).selectColumns OHLCV with
    | .error e => (h2, .error e)
    | .ok sel =>
      let q := Heap.alloc h2 sel
      (q.1, .ok (q.2, InfoFrame.fromRecord (KEYS_TO_KEEP.map (fun k => (k, dictGet asset_info k)))))

/-- Heap version of `transform_dividends`: the copy is taken before the
timezone strip and the column rename; the rename raises on a length
mismatch, after the strip already happened on the copy. -/
def transform_dividends_heap (h : Heap) (r : Option Nat) : Heap × Except String (Option Nat) :=
  match r with
  | none => (h, .ok none)
  | some r =>
    if (Heap.readRef h r).isEmpty then (h, .ok none)
    else
      let p := Heap.alloc h (Heap.readRef h r)
      let h2 := stripTzInPlace p.1 p.2
      match (Heap.readRef h2 p.2).setColumns ["Dividends"] with
      | .error e => (h2, .error e)
      | .ok d => (Heap.writeRef h2 p.2 d, .ok (some p.2))

/-- Agreement of two heaps on all references below `n` (the second heap is
also at least `n` long).  Every heap produced by the transforms agrees with
the input heap below the input heap length: mutations only touch copies. -/
def agreeBelow (h h2 : Heap) (n : Nat) : Prop :=
  n ≤ h2.length ∧ ∀ r, r < n → Heap.readRef h2 r = Heap.readRef h r

instance : Inhabited InfoFrame := ⟨⟨[], []⟩⟩

instance {ε α : Type} [DecidableEq ε] [DecidableEq α] : DecidableEq (Except ε α) := fun x y =>
  match x, y with
  | .error a, .error b => decidable_of_iff (a = b) ⟨fun h => h ▸ rfl, Except.error.inj⟩
  | .ok a, .ok b => decidable_of_iff (a = b) ⟨fun h => h ▸ rfl, Except.ok.inj⟩
  | .error _, .ok _ => isFalse (fun h => Except.noConfusion h)
  | .ok _, .error _ => isFalse (fun h => Except.noConfusion h)

/-- A concrete tz-aware history frame with one extra provider column. -/
def sampleHist : DataFrame :=
  { columns := ["Open", "High", "Low", "Close", "Volume", "Extra"],
    indexTz := some 60,
    rows := [(0, [Value.vNum 10, Value.vNum 12, Value.vNum 9, Value.vNum 11,
                  Value.vNum 100, Value.vNum 1]),
             (1, [Value.vNum 11, Value.vNum 13, Value.vNum 10, Value.vNum 12,
                  Value.vNum 110, Value.vNum 2])] }

/-- A concrete raw descriptive document: two allow-listed keys, one extraneous key. -/
def sampleInfo : AssetInfo :=
  [("symbol", Value.vStr "PE500.PA"), ("currency", Value.vStr "EUR"),
   ("extraKey", Value.vNum 5)]

/-- A concrete tz-aware single-column distribution frame. -/
def sampleDiv : DataFrame :=
  { columns := ["Amount"], indexTz := some 60, rows := [(5, [Value.vNum 3])] }

/-- A two-column frame violating the sole-value-column precondition. -/
def sampleDivTwoCols : DataFrame :=
  { columns := ["Amount", "Currency"], indexTz := none,
    rows := [(5, [Value.vNum 3, Value.vStr "EUR"])] }

/-- A provider that raises for one ticker and succeeds for the rest. -/
def provMixed : Provider := fun t =>
  if t = "FAIL.PA" then .error "boom"
  else .ok { history := sampleHist, info := sampleInfo, dividends := sampleDiv }

/-- A provider whose price history is empty for every ticker. -/
def provEmptyHistory : Provider := fun _ =>
  .ok { history := emptyFrame, info := sampleInfo, dividends := sampleDiv }

/-- A provider whose distribution series is empty for every ticker. -/
def provNoDividends : Provider := fun _ =>
  .ok { history := sampleHist, info := sampleInfo, dividends := emptyFrame }

/-- The processed pair for the sample instrument (used to exercise the
index invariants at a concrete input). -/
def sampleProcessed : DataFrame × InfoFrame :=
  (transform_history_and_info sampleHist sampleInfo).toOption.getD
    (emptyFrame, InfoFrame.fromRecord [])

/-
Helper lemmas (shared between claims; none of them is a claim theorem).
-/

/-- Looking up `c` in a row whose cells were built by mapping `f` over the
column labels recovers `f c`. -/
theorem cellAt_map (cs : List String) (f : String → Value) {c : String} (hc : c ∈ cs) :
    cellAt cs (cs.map f) c = f c := by
  induction cs with
  | nil => exact absurd hc (List.not_mem_nil c)
  | cons c0 cs ih =>
    rw [List.map_cons]
    by_cases h : c0 = c
    · subst h
      simp [cellAt]
    · have hc' : c ∈ cs := by
        rcases List.mem_cons.mp hc with h1 | h1
        · exact absurd h1.symm h
        · exact h1
      simp [cellAt, h, ih hc']

/-- Computation of `transform_history_and_info` on a non-empty frame that
contains all five OHLCV labels. -/
theorem transform_history_eq (df : DataFrame) (info : AssetInfo)
    (hne : df.isEmpty = false) (hcols : ∀ c ∈ OHLCV, c ∈ df.columns) :
    transform_history_and_info df info = .ok
      ({ columns := OHLCV,
         indexTz := none,
         rows := df.rows.map (fun r => (r.1, OHLCV.map (fun c => cellAt df.columns r.2 c))) },
       InfoFrame.fromRecord (KEYS_TO_KEEP.map fun k => (k, dictGet info k))) := by
  by_cases htz : df.indexTz.isSome
  · unfold transform_history_and_info DataFrame.selectColumns
    simp [hne, htz, DataFrame.stripIndexTz]
    rw [if_pos hcols]
  · have hnone : df.indexTz = none := Option.not_isSome_iff_eq_none.mp htz
    unfold transform_history_and_info DataFrame.selectColumns
    simp [hne, htz, hnone]
    rw [if_pos hcols]

/-- Columns of the one-row frame built from a key-indexed record. -/
theorem fromRecord_map_columns (g : String → Value) (ks : List String) :
    (InfoFrame.fromRecord (ks.map fun k => (k, g k))).columns = ks := by
  simp [InfoFrame.fromRecord, List.map_map, Function.comp_def]

/-- Cell lookup in the one-row frame built from a key-indexed record. -/
theorem fromRecord_get (g : String → Value) (ks : List String) {k : String} (hk : k ∈ ks) :
    (InfoFrame.fromRecord (ks.map fun x => (x, g x))).get k = some (g k) := by
  have hrow : (InfoFrame.fromRecord (ks.map fun x => (x, g x))).row = ks.map g := by
    simp [InfoFrame.fromRecord, List.map_map, Function.comp_def]
  unfold InfoFrame.get
  rw [fromRecord_map_columns, hrow, cellAt_map ks g hk]
  simp [hk]

/-- C1: for every non-empty interim price frame containing the provider's
columns, `transform_history_and_info` returns a frame whose columns are
exactly [Open, High, Low, Close, Volume] in that order, dropping every
other column and keeping the values (and timestamps) of the kept columns
unchanged. -/
theorem transform_history_projects_ohlcv (df : DataFrame) (info : AssetInfo)
    (hne : df.isEmpty = false) (hcols : ∀ c ∈ OHLCV, c ∈ df.columns) :
    ∃ out, transform_history_and_info df info = .ok out ∧
      out.1.columns = OHLCV ∧
      out.1.rows.map Prod.fst = df.rows.map Prod.fst ∧
      ∀ c ∈ OHLCV, out.1.colVals c = df.colVals c := by
  refine ⟨_, transform_history_eq df info hne hcols, rfl, ?_, ?_⟩
  · simp [List.map_map, Function.comp_def]
  · intro c hc
    unfold DataFrame.colVals
    simp only [List.map_map]
    congr 1
    funext r
    exact cellAt_map OHLCV (fun c => cellAt df.columns r.2 c) hc

/-- C1 witness: the sample frame is non-empty, contains the five columns,
and the theorem applies to it. -/
theorem transform_history_projects_ohlcv_witness :
    ∃ out, transform_history_and_info sampleHist sampleInfo = .ok out ∧
      out.1.columns = OHLCV ∧
      out.1.rows.map Prod.fst = sampleHist.rows.map Prod.fst ∧
      ∀ c ∈ OHLCV, out.1.colVals c = sampleHist.colVals c :=
  transform_history_projects_ohlcv sampleHist sampleInfo (by decide) (by decide)

/-- C2: for every raw descriptive document (the empty one included), the
processed descriptive frame has exactly the 17 allow-listed keys as
columns; present keys keep their value, absent allow-listed keys become
null, keys outside the allow-list are dropped. -/
theorem transform_info_allowlist (df : DataFrame) (info : AssetInfo)
    (hne : df.isEmpty = false) (hcols : ∀ c ∈ OHLCV, c ∈ df.columns) :
    ∃ out, transform_history_and_info df info = .ok out ∧
      out.2.columns = KEYS_TO_KEEP ∧
      KEYS_TO_KEEP.length = 17 ∧
      (∀ k v, k ∈ KEYS_TO_KEEP → List.lookup k info = some v → out.2.get k = some v) ∧
      (∀ k, k ∈ KEYS_TO_KEEP → List.lookup k info = none → out.2.get k = some Value.vNull) ∧
      (∀ c ∈ out.2.columns, c ∈ KEYS_TO_KEEP) := by
  refine ⟨_, transform_history_eq df info hne hcols,
    fromRecord_map_columns _ _, by decide, ?_, ?_, ?_⟩
  · intro k v hk hv
    rw [fromRecord_get (fun k => dictGet info k) KEYS_TO_KEEP hk]
    simp [dictGet, hv]
  · intro k hk hv
    rw [fromRecord_get (fun k => dictGet info k) KEYS_TO_KEEP hk]
    simp [dictGet, hv]
  · intro c hc
    rwa [fromRecord_map_columns] at hc

/-- C2 witness: the theorem applies to the sample instrument, whose raw
document has two allow-listed keys and one extraneous key. -/
theorem transform_info_allowlist_witness :
    ∃ out, transform_history_and_info sampleHist sampleInfo = .ok out ∧
      out.2.columns = KEYS_TO_KEEP ∧
      KEYS_TO_KEEP.length = 17 ∧
      (∀ k v, k ∈ KEYS_TO_KEEP → List.lookup k sampleInfo = some v → out.2.get k = some v) ∧
      (∀ k, k ∈ KEYS_TO_KEEP → List.lookup k sampleInfo = none → out.2.get k = some Value.vNull) ∧
      (∀ c ∈ out.2.columns, c ∈ KEYS_TO_KEEP) :=
  transform_info_allowlist sampleHist sampleInfo (by decide) (by decide)

/-- C3: the run decomposes into independent per-instrument event streams
(one instrument's failure never aborts the rest), a failing extraction is
logged with the instrument's identity and the error, and a failing
transform is likewise caught at the per-instrument boundary and logged
after the already-written raw and interim artifacts. -/
theorem run_etl_isolates_instrument_failures (provider : Provider)
    (pre post : List (String × String)) (name ticker : String) :
    run_etl_for_universe provider (pre ++ (name, ticker) :: post) =
      run_etl_for_universe provider pre ++ process_instrument provider name ticker
        ++ run_etl_for_universe provider post ∧
    (∀ e, provider ticker = .error e →
      process_instrument provider name ticker = [Event.errorLog name ticker e]) ∧
    (∀ ex e, provider ticker = .ok ex → ex.history.isEmpty = false →
      transform_history_and_info (build_interim_from_raw ex.history ex.info (some ex.dividends)).1
        ex.info = .error e →
      process_instrument provider name ticker =
        save_raw name ex.history ex.info
          ++ save_interim name (build_interim_from_raw ex.history ex.info (some ex.dividends)).1
               (build_interim_from_raw ex.history ex.info (some ex.dividends)).2.1
               (build_interim_from_raw ex.history ex.info (some ex.dividends)).2.2
          ++ [Event.errorLog name ticker e]) := by
  refine ⟨?_, ?_, ?_⟩
  · simp [run_etl_for_universe, List.append_assoc]
  · intro e he
    simp [process_instrument, he]
  · intro ex e hok hne herr
    simp [process_instrument, hok, hne, herr, List.append_assoc]

/-- C3 witness: with a provider raising "boom" for one ticker, that
instrument's stream is exactly the logged failure entry. -/
theorem run_etl_isolates_instrument_failures_witness :
    process_instrument provMixed "NASDAQ_PEA" "FAIL.PA" =
      [Event.errorLog "NASDAQ_PEA" "FAIL.PA" "boom"] :=
  (run_etl_isolates_instrument_failures provMixed [] [] "NASDAQ_PEA" "FAIL.PA").2.1
    "boom" (by decide)

/-- C4: on an empty price series the processed-tier price transform fails
with the structural error and returns no frame, and an error of that kind
raised inside an instrument's pipeline is caught at the same per-instrument
boundary as extraction errors (it becomes the trailing logged failure). -/
theorem transform_empty_history_raises (df : DataFrame) (info : AssetInfo)
    (hemp : df.isEmpty = true) :
    transform_history_and_info df info = .error emptyHistoryMsg ∧
    ∀ (provider : Provider) (name ticker : String) (ex : Extracted) (e : String),
      provider ticker = .ok ex → ex.history.isEmpty = false →
      transform_history_and_info (build_interim_from_raw ex.history ex.info (some ex.dividends)).1
        ex.info = .error e →
      ∃ evs, process_instrument provider name ticker = evs ++ [Event.errorLog name ticker e] := by
  refine ⟨by simp [transform_history_and_info, hemp], ?_⟩
  intro provider name ticker ex e hok hne herr
  refine ⟨save_raw name ex.history ex.info
    ++ save_interim name (build_interim_from_raw ex.history ex.info (some ex.dividends)).1
         (build_interim_from_raw ex.history ex.info (some ex.dividends)).2.1
         (build_interim_from_raw ex.history ex.info (some ex.dividends)).2.2, ?_⟩
  simp [process_instrument, hok, hne, herr, List.append_assoc]

/-- C4 witness: the transform raises the structural error on the empty frame. -/
theorem transform_empty_history_raises_witness :
    transform_history_and_info emptyFrame [] = .error emptyHistoryMsg :=
  (transform_empty_history_raises emptyFrame [] (by decide)).1

/-- C5: an instrument whose extracted price series is empty still gets its
raw descriptive artifact, a warning replaces the raw price artifact, no
interim or processed artifact is produced, and no exception escapes. -/
theorem empty_history_short_circuits (provider : Provider) (name ticker : String)
    (ex : Extracted) (hok : provider ticker = .ok ex) (hemp : ex.history.isEmpty = true) :
    process_instrument provider name ticker =
      [Event.warnNoHistory name, Event.rawInfos name ex.info] := by
  simp [process_instrument, hok, hemp, save_raw]

/-- C5 witness: the empty-history provider produces exactly the warning and
the raw descriptive write. -/
theorem empty_history_short_circuits_witness :
    process_instrument provEmptyHistory "CAC40_ETF" "C40.PA" =
      [Event.warnNoHistory "CAC40_ETF", Event.rawInfos "CAC40_ETF" sampleInfo] :=
  empty_history_short_circuits provEmptyHistory "CAC40_ETF" "C40.PA"
    { history := emptyFrame, info := sampleInfo, dividends := sampleDiv } (by decide) (by decide)

/-- C6: the interim price frame re-derived from the raw one keeps the
columns, the row count, the cell values and the naive timestamps; an empty
input comes back unchanged, a non-empty one only loses its timezone. -/
theorem build_interim_price_roundtrip (df : DataFrame) (info : AssetInfo)
    (div : Option DataFrame) :
    ((build_interim_from_raw df info div).1.columns = df.columns ∧
     (build_interim_from_raw df info div).1.rows = df.rows) ∧
    (df.isEmpty = true → (build_interim_from_raw df info div).1 = df) ∧
    (df.isEmpty = false → (build_interim_from_raw df info div).1.indexTz = none) := by
  by_cases h1 : df.isEmpty
  · simp [build_interim_from_raw, h1, DataFrame.stripIndexTz]
  · by_cases h2 : df.indexTz.isSome
    · simp [build_interim_from_raw, h1, h2, DataFrame.stripIndexTz]
    · have hnone : df.indexTz = none := Option.not_isSome_iff_eq_none.mp h2
      simp [build_interim_from_raw, h1, h2, hnone]

/-- C6 witness: the tz-aware sample frame loses exactly its timezone. -/
theorem build_interim_price_roundtrip_witness :
    (build_interim_from_raw sampleHist sampleInfo (some sampleDiv)).1.indexTz = none :=
  (build_interim_price_roundtrip sampleHist sampleInfo (some sampleDiv)).2.2 (by decide)

/-- Inversion of a successful `selectColumns`: the projection keeps the
index timezone and the per-row timestamps, and adopts the requested labels. -/
theorem selectColumns_ok_inv {df : DataFrame} {cs : List String} {out : DataFrame}
    (h : df.selectColumns cs = .ok out) :
    out.columns = cs ∧ out.indexTz = df.indexTz ∧
    out.rows.map Prod.fst = df.rows.map Prod.fst := by
  unfold DataFrame.selectColumns at h
  split at h
  · cases h
    refine ⟨rfl, rfl, ?_⟩
    simp [List.map_map, Function.comp_def]
  · simp at h

/-- Inversion of a successful `transform_history_and_info`: the processed
price frame has no timezone and keeps the input timestamps in order. -/
theorem transform_history_ok_index {df : DataFrame} {info : AssetInfo}
    {out : DataFrame × InfoFrame}
    (hok : transform_history_and_info df info = .ok out) :
    out.1.indexTz = none ∧ out.1.rows.map Prod.fst = df.rows.map Prod.fst := by
  unfold transform_history_and_info at hok
  by_cases hemp : df.isEmpty
  · simp [hemp] at hok
  · simp only [hemp, Bool.false_eq_true, if_false] at hok
    by_cases htz : df.indexTz.isSome
    · simp only [htz, if_true] at hok
      rcases hsel : DataFrame.selectColumns df.stripIndexTz OHLCV with e | sel
      · rw [hsel] at hok
        simp at hok
      · rw [hsel] at hok
        simp only [Except.ok.injEq] at hok
        obtain ⟨hc, hi, hr⟩ := selectColumns_ok_inv hsel
        rw [← hok]
        exact ⟨hi, hr⟩
    · simp only [htz, Bool.false_eq_true, if_false] at hok
      have hnone : df.indexTz = none := Option.not_isSome_iff_eq_none.mp htz
      rcases hsel : DataFrame.selectColumns df OHLCV with e | sel
      · rw [hsel] at hok
        simp at hok
      · rw [hsel] at hok
        simp only [Except.ok.injEq] at hok
        obtain ⟨hc, hi, hr⟩ := selectColumns_ok_inv hsel
        rw [← hok]
        exact ⟨by rw [hi, hnone], hr⟩

/-- C8: whenever the processed price frame exists and the extracted series
was strictly increasing, the processed frame's timestamp index carries no
timezone and is strictly increasing with no duplicates. -/
theorem processed_price_index_invariants (df : DataFrame) (info : AssetInfo)
    (out : DataFrame × InfoFrame)
    (hsorted : (df.rows.map Prod.fst).Pairwise (fun a b => a < b))
    (hok : transform_history_and_info df info = .ok out) :
    out.1.indexTz = none ∧
    (out.1.rows.map Prod.fst).Pairwise (fun a b => a < b) ∧
    (out.1.rows.map Prod.fst).Nodup := by
  obtain ⟨hi, hr⟩ := transform_history_ok_index hok
  refine ⟨hi, ?_, ?_⟩
  · rw [hr]
    exact hsorted
  · rw [hr]
    exact hsorted.imp (fun hab => ne_of_lt hab)

/-- C8 witness: the invariants hold on the processed sample frame. -/
theorem processed_price_index_invariants_witness :
    sampleProcessed.1.indexTz = none ∧
    (sampleProcessed.1.rows.map Prod.fst).Pairwise (fun a b => a < b) ∧
    (sampleProcessed.1.rows.map Prod.fst).Nodup :=
  processed_price_index_invariants sampleHist sampleInfo sampleProcessed
    (by decide) (by decide)

/-- C10: on a non-empty frame, `transform_dividends` returns the renamed
single-column frame when the input has exactly one value column, and raises
the length-mismatch error when it has two or more. -/
theorem transform_dividends_single_column_contract (d : DataFrame)
    (hne : d.isEmpty = false) :
    (d.columns.length = 1 →
      transform_dividends (some d) =
        .ok (some { columns := ["Dividends"], indexTz := none, rows := d.rows })) ∧
    (2 ≤ d.columns.length → transform_dividends (some d) = .error "Length mismatch") := by
  constructor
  · intro h1
    by_cases htz : d.indexTz.isSome
    · simp [transform_dividends, hne, htz, DataFrame.stripIndexTz, DataFrame.setColumns, h1]
    · have hnone : d.indexTz = none := Option.not_isSome_iff_eq_none.mp htz
      simp [transform_dividends, hne, htz, DataFrame.setColumns, h1, hnone]
  · intro h2
    have hne1 : ¬d.columns.length = 1 := by omega
    by_cases htz : d.indexTz.isSome
    · simp [transform_dividends, hne, htz, DataFrame.stripIndexTz, DataFrame.setColumns, hne1]
    · simp [transform_dividends, hne, htz, DataFrame.setColumns, hne1]

/-- C10 witness: the two-column frame makes the rename raise. -/
theorem transform_dividends_single_column_contract_witness :
    transform_dividends (some sampleDivTwoCols) = .error "Length mismatch" :=
  (transform_dividends_single_column_contract sampleDivTwoCols (by decide)).2 (by decide)

/-- No raw-tier event is a distribution artifact. -/
theorem save_raw_no_distribution (n : String) (dfh : DataFrame) (i : AssetInfo) :
    ∀ ev ∈ save_raw n dfh i, ev.isDistributionArtifact = false := by
  intro ev hev
  unfold save_raw at hev
  rcases List.mem_append.mp hev with h | h
  · split at h
    · simp at h
      subst h
      rfl
    · simp at h
      subst h
      rfl
  · simp at h
    subst h
    rfl

/-- With no interim distribution frame, no interim event is a distribution
artifact. -/
theorem save_interim_none_no_distribution (n : String) (dfh : DataFrame) (fi : InfoFrame) :
    ∀ ev ∈ save_interim n dfh fi none, ev.isDistributionArtifact = false := by
  intro ev hev
  unfold save_interim at hev
  rcases List.mem_append.mp hev with h | h
  · rcases List.mem_append.mp h with h2 | h2
    · split at h2
      · simp at h2
        subst h2
        rfl
      · simp at h2
    · simp at h2
      subst h2
      rfl
  · simp at h

/-- With no processed distribution frame, no processed event is a
distribution artifact. -/
theorem load_processed_none_no_distribution (n : String) (dfc : DataFrame) (fic : InfoFrame) :
    ∀ ev ∈ load_processed n dfc fic none, ev.isDistributionArtifact = false := by
  intro ev hev
  unfold load_processed at hev
  simp at hev
  rcases hev with h | h
  · subst h
    rfl
  · subst h
    rfl

/-- C7: an absent or empty distribution series yields no interim and no
processed distribution artifact (the transforms yield absence, never an
empty table) — also along the whole per-instrument run — while a non-empty
series with its sole value column comes back timezone-stripped with the
column renamed to "Dividends" and the values unchanged. -/
theorem distribution_absent_or_renamed (hist : DataFrame) (info : AssetInfo) (d : DataFrame) :
    ((build_interim_from_raw hist info none).2.2 = none ∧
     transform_dividends none = .ok none ∧
     transform_dividends (some emptyFrame) = .ok none) ∧
    (d.isEmpty = true →
      (build_interim_from_raw hist info (some d)).2.2 = none ∧
      transform_dividends (some d) = .ok none) ∧
    (d.isEmpty = false → d.columns.length = 1 →
      transform_dividends (some d) =
        .ok (some { columns := ["Dividends"], indexTz := none, rows := d.rows })) ∧
    (∀ (provider : Provider) (name ticker : String) (ex : Extracted),
      provider ticker = .ok ex → ex.dividends.isEmpty = true →
      ∀ ev ∈ process_instrument provider name ticker, ev.isDistributionArtifact = false) := by
  refine ⟨⟨by simp [build_interim_from_raw], rfl, rfl⟩, ?_, ?_, ?_⟩
  · intro hd
    exact ⟨by simp [build_interim_from_raw, hd], by simp [transform_dividends, hd]⟩
  · intro hd h1
    by_cases htz : d.indexTz.isSome
    · simp [transform_dividends, hd, htz, DataFrame.stripIndexTz, DataFrame.setColumns, h1]
    · have hnone : d.indexTz = none := Option.not_isSome_iff_eq_none.mp htz
      simp [transform_dividends, hd, htz, DataFrame.setColumns, h1, hnone]
  · intro provider name ticker ex hok hdiv ev hev
    have hinterim : (build_interim_from_raw ex.history ex.info (some ex.dividends)).2.2 = none := by
      simp [build_interim_from_raw, hdiv]
    simp only [process_instrument, hok] at hev
    by_cases hhist : ex.history.isEmpty
    · simp only [hhist, if_true] at hev
      exact save_raw_no_distribution name ex.history ex.info ev hev
    · simp only [hhist, Bool.false_eq_true, if_false, hinterim] at hev
      rcases htr : transform_history_and_info
          (build_interim_from_raw ex.history ex.info (some ex.dividends)).1 ex.info with e | p
      · rw [htr] at hev
        simp only [List.mem_append] at hev
        rcases hev with (h | h) | h
        · exact save_raw_no_distribution name ex.history ex.info ev h
        · exact save_interim_none_no_distribution name _ _ ev h
        · simp at h
          subst h
          rfl
      · rw [htr] at hev
        have hdp : transform_dividends (some ((none : Option DataFrame).getD emptyFrame)) =
            .ok (none : Option DataFrame) := rfl
        simp only [hdp] at hev
        simp only [List.mem_append] at hev
        rcases hev with (h | h) | h
        · exact save_raw_no_distribution name ex.history ex.info ev h
        · exact save_interim_none_no_distribution name _ _ ev h
        · exact load_processed_none_no_distribution name p.1 p.2 ev h

/-- C7 witness: the non-empty single-column sample distribution frame is
renamed and timezone-stripped. -/
theorem distribution_absent_or_renamed_witness :
    transform_dividends (some sampleDiv) =
      .ok (some { columns := ["Dividends"], indexTz := none, rows := sampleDiv.rows }) :=
  (distribution_absent_or_renamed sampleHist sampleInfo sampleDiv).2.2.1 (by decide) (by decide)

/-- Writing a reference keeps the heap length. -/
theorem Heap.length_writeRef (h : Heap) (r : Nat) (df : DataFrame) :
    (Heap.writeRef h r df).length = h.length := by
  simp [Heap.writeRef]

/-- Writing one reference leaves every other reference unchanged. -/
theorem Heap.readRef_writeRef_ne (h : Heap) (r r2 : Nat) (df : DataFrame) (hne : r ≠ r2) :
    Heap.readRef (Heap.writeRef h r df) r2 = Heap.readRef h r2 := by
  simp [Heap.readRef, Heap.writeRef, List.getD_eq_getElem?_getD, List.getElem?_set_ne hne]

/-- Allocation leaves every existing reference unchanged. -/
theorem Heap.readRef_append (h : Heap) (df : DataFrame) (r : Nat) (hr : r < h.length) :
    Heap.readRef (h ++ [df]) r = Heap.readRef h r := by
  unfold Heap.readRef
  rw [List.getD_append _ _ _ _ hr]

/-- Heap agreement below `n` is reflexive up to the heap's own length. -/
theorem agreeBelow_refl (h : Heap) : agreeBelow h h h.length :=
  ⟨le_refl _, fun _ _ => rfl⟩

/-- Allocation preserves agreement below `n`. -/
theorem agreeBelow_append {h h2 : Heap} {n : Nat} (a : agreeBelow h h2 n) (df : DataFrame) :
    agreeBelow h (h2 ++ [df]) n := by
  refine ⟨le_trans a.1 (by simp), fun r hrn => ?_⟩
  rw [Heap.readRef_append h2 df r (lt_of_lt_of_le hrn a.1)]
  exact a.2 r hrn

/-- Writing at a reference at or above `n` preserves agreement below `n`. -/
theorem agreeBelow_write {h h2 : Heap} {n j : Nat} (a : agreeBelow h h2 n) (hj : n ≤ j)
    (df : DataFrame) : agreeBelow h (Heap.writeRef h2 j df) n := by
  refine ⟨by rw [Heap.length_writeRef]; exact a.1, fun r hrn => ?_⟩
  rw [Heap.readRef_writeRef_ne h2 j r df (by omega)]
  exact a.2 r hrn

/-- The in-place timezone strip at a reference at or above `n` preserves
agreement below `n`. -/
theorem agreeBelow_stripTz {h h2 : Heap} {n j : Nat} (a : agreeBelow h h2 n) (hj : n ≤ j) :
    agreeBelow h (stripTzInPlace h2 j) n := by
  unfold stripTzInPlace
  split
  · exact agreeBelow_write a hj _
  · exact a

/-- A conditional write at a reference at or above `n` preserves agreement
below `n`. -/
theorem agreeBelow_ite_write {h h2 : Heap} {n j : Nat} {c : Bool} {df : DataFrame}
    (a : agreeBelow h h2 n) (hj : n ≤ j) :
    agreeBelow h (if c then Heap.writeRef h2 j df else h2) n := by
  split
  · exact agreeBelow_write a hj df
  · exact a

/-- Read back agreement below `n` at one reference. -/
theorem agreeBelow.readRef_eq {h h2 : Heap} {n r : Nat} (a : agreeBelow h h2 n) (hr : r < n) :
    Heap.readRef h2 r = Heap.readRef h r :=
  a.2 r hr

/-- `build_interim_from_raw_heap` never changes a pre-existing object. -/
theorem build_interim_heap_preserves (h : Heap) (rHist : Nat) (info : AssetInfo)
    (rDiv : Option Nat) (r : Nat) (hr : r < h.length) :
    Heap.readRef (build_interim_from_raw_heap h rHist info rDiv).1 r = Heap.readRef h r := by
  unfold build_interim_from_raw_heap Heap.alloc
  cases rDiv with
  | none =>
    dsimp only
    exact (agreeBelow_ite_write (agreeBelow_append (agreeBelow_refl h) _) (le_refl _)).readRef_eq hr
  | some rd =>
    dsimp only
    split
    · split
      · exact (agreeBelow_write (agreeBelow_append (agreeBelow_refl h) _)
          (le_refl _) _).readRef_eq hr
      · refine (agreeBelow_stripTz (agreeBelow_append (agreeBelow_write
          (agreeBelow_append (agreeBelow_refl h) _) (le_refl _) _) _) ?_).readRef_eq hr
        simp [Heap.length_writeRef]
    · split
      · exact (agreeBelow_append (agreeBelow_refl h) _).readRef_eq hr
      · refine (agreeBelow_stripTz (agreeBelow_append (agreeBelow_append
          (agreeBelow_refl h) _) _) ?_).readRef_eq hr
        simp

/-- `transform_history_and_info_heap` never changes a pre-existing object. -/
theorem transform_history_heap_preserves (h : Heap) (rHist : Nat) (info : AssetInfo)
    (r : Nat) (hr : r < h.length) :
    Heap.readRef (transform_history_and_info_heap h rHist info).1 r = Heap.readRef h r := by
  unfold transform_history_and_info_heap Heap.alloc
  split
  · rfl
  · dsimp only
    split
    · exact (agreeBelow_stripTz (agreeBelow_append (agreeBelow_refl h) _)
        (le_refl _)).readRef_eq hr
    · exact (agreeBelow_append (agreeBelow_stripTz (agreeBelow_append (agreeBelow_refl h) _)
        (le_refl _)) _).readRef_eq hr

/-- `transform_dividends_heap` never changes a pre-existing object. -/
theorem transform_dividends_heap_preserves (h : Heap) (ro : Option Nat) (r : Nat)
    (hr : r < h.length) :
    Heap.readRef (transform_dividends_heap h ro).1 r = Heap.readRef h r := by
  unfold transform_dividends_heap Heap.alloc
  cases ro with
  | none => rfl
  | some rd =>
    dsimp only
    split
    · rfl
    · split
      · exact (agreeBelow_stripTz (agreeBelow_append (agreeBelow_refl h) _)
          (le_refl _)).readRef_eq hr
      · exact (agreeBelow_write (agreeBelow_stripTz (agreeBelow_append (agreeBelow_refl h) _)
          (le_refl _)) (le_refl _) _).readRef_eq hr

/-- C9: none of the transformation functions mutates its arguments — under
Python object semantics (in-place index/column assignment, `.copy()`
allocating a detached object), the frames the argument references point to
are unchanged after each call; the descriptive dict is only ever read. -/
theorem transforms_do_not_mutate_arguments (h : Heap) (info : AssetInfo)
    (rHist rDiv rD : Nat) (hH : rHist < h.length) (hD : rDiv < h.length)
    (hT : rD < h.length) :
    (Heap.readRef (build_interim_from_raw_heap h rHist info (some rDiv)).1 rHist =
        Heap.readRef h rHist ∧
     Heap.readRef (build_interim_from_raw_heap h rHist info (some rDiv)).1 rDiv =
        Heap.readRef h rDiv) ∧
    Heap.readRef (transform_history_and_info_heap h rHist info).1 rHist =
      Heap.readRef h rHist ∧
    Heap.readRef (transform_dividends_heap h (some rD)).1 rD = Heap.readRef h rD :=
  ⟨⟨build_interim_heap_preserves h rHist info (some rDiv) rHist hH,
    build_interim_heap_preserves h rHist info (some rDiv) rDiv hD⟩,
   transform_history_heap_preserves h rHist info rHist hH,
   transform_dividends_heap_preserves h (some rD) rD hT⟩

/-- C9 witness: on a two-object heap holding the sample frames, the
dividend transform leaves the argument object untouched. -/
theorem transforms_do_not_mutate_arguments_witness :
    Heap.readRef (transform_dividends_heap [sampleHist, sampleDiv] (some 1)).1 1 =
      Heap.readRef [sampleHist, sampleDiv] 1 :=
  (transforms_do_not_mutate_arguments [sampleHist, sampleDiv] sampleInfo 0 1 1
    (by decide) (by decide) (by decide)).2.2

end ETL
